import Mathlib

/-!
Shallow embedding of the token-lifecycle manager (`src/Auth.ts`) and the
file persistence adapter (`src/types.ts`) of the seedr-js repository.

Conventions of the embedding:
- JavaScript `undefined` (absent object property, `?.` results, `??`
  fallbacks) is `Option.none`; object properties that the code can copy
  from an untyped JSON response body are `Option` valued.
- `Date.now()` is a single integer `now` threaded through each call.
- Numeric comparisons against a possibly-undefined number mirror the
  JavaScript semantics: `a < undefined` and `undefined < a` are both false
  (the same holds for `NaN`, so `none` also covers the `NaN` expiry that
  arises when `expires_in` is missing from a response body).
- Each method takes the HTTP response its single request would receive as
  an explicit argument and reports, alongside its result and final state,
  the list of states passed to `state.save` and the number of HTTP
  requests actually issued.
- `got` throws on non-2xx statuses unless `throwHttpErrors: false` is
  passed; `obtainDeviceCode` and `refreshTokenXBMC` do not pass it, so
  their transport layer raises before the method body sees the response.
-/

namespace Seedr

/-- Cached access token: `AuthState.access` of `src/types.ts`. -/
structure Access where
  token : Option String
  expiry : Option Int
deriving DecidableEq, Repr

/-- Cached refresh token: `AuthState.refresh` of `src/types.ts`. -/
structure Refresh where
  token : Option String
  expiry : Option Int := none
deriving DecidableEq, Repr

/-- Device-pairing record: `AuthState.xbmc` of `src/types.ts`; `expiry`
present while the pairing is pending, absent once approved. -/
structure Xbmc where
  device_code : Option String
  user_code : Option String
  expiry : Option Int
deriving DecidableEq, Repr

/-- Cached plaintext login: `AuthState.credential` of `src/types.ts`. -/
structure Credential where
  username : String
  password : String
deriving DecidableEq, Repr

/-- The persisted aggregate `AuthState` of `src/types.ts`. -/
structure AuthState where
  access : Option Access := none
  refresh : Option Refresh := none
  xbmc : Option Xbmc := none
  credential : Option Credential := none
deriving DecidableEq, Repr

/-- JSON body of the `oauth_test/token.php` endpoint
(`Either<RTokenFetch | RTokenRefresh, SeedrError>`), plus the HTTP status. -/
structure TokenResp where
  statusCode : Int
  access_token : Option String := none
  refresh_token : Option String := none
  expires_in : Option Int := none
  error : Option String := none
  error_description : Option String := none
deriving DecidableEq, Repr

/-- JSON body of the `api/device/code` endpoint (`RDeviceGen`), plus the
HTTP status. -/
structure DeviceResp where
  statusCode : Int
  device_code : Option String := none
  user_code : Option String := none
  expires_in : Option Int := none
deriving DecidableEq, Repr

/-- JSON body of the `api/device/authorize` endpoint
(`Either<RTokenRefresh, SeedrError>`), plus the HTTP status. -/
structure XbmcResp where
  statusCode : Int
  access_token : Option String := none
  expires_in : Option Int := none
  error : Option String := none
  error_description : Option String := none
deriving DecidableEq, Repr

/-- The distinct `throw new Error(...)` sites of `src/Auth.ts`, plus the
transport-level error `got` raises on a non-2xx status when
`throwHttpErrors: false` is not passed. -/
inductive AuthError where
  | missingCredential
  | remoteAuthError (desc : Option String)
  | deviceHttpError (body : DeviceResp)
  | authorizationPending
  | transportError
  | unauthenticated
deriving DecidableEq, Repr

/-- What one method call produces: its return-or-throw, the manager state
afterwards, the states handed to `state.save` in order, and the number of
HTTP requests issued. -/
instance {ε α : Type} [DecidableEq ε] [DecidableEq α] :
    DecidableEq (Except ε α) := fun a b =>
  match a, b with
  | Except.error x, Except.error y =>
    if h : x = y then Decidable.isTrue (by rw [h])
    else Decidable.isFalse (by intro hh; cases hh; exact h rfl)
  | Except.error _, Except.ok _ => Decidable.isFalse (by intro hh; cases hh)
  | Except.ok _, Except.error _ => Decidable.isFalse (by intro hh; cases hh)
  | Except.ok x, Except.ok y =>
    if h : x = y then Decidable.isTrue (by rw [h])
    else Decidable.isFalse (by intro hh; cases hh; exact h rfl)

structure Outcome (α : Type) where
  result : Except AuthError α
  state : AuthState
  saved : List AuthState
  net : Nat
deriving Repr, DecidableEq

/-- JavaScript `a < b` where `b` may be `undefined`/`NaN`. -/
def jsLtR (a : Int) (b : Option Int) : Bool :=
  match b with
  | some b => decide (a < b)
  | none => false

/-- JavaScript `a < b` where `a` may be `undefined`/`NaN`. -/
def jsLtL (a : Option Int) (b : Int) : Bool :=
  match a with
  | some a => decide (a < b)
  | none => false

/-- Expiry arithmetic `response.body.expires_in * 1000 + Date.now()`; `none` (the `NaN`
result) when `expires_in` is absent from the body. -/
def expiryFrom (ttl : Option Int) (now : Int) : Option Int :=
  ttl.map (fun e => e * 1000 + now)

/-- The guard `this.#auth.access && Date.now() < this.#auth.access.expiry`. -/
def accessValid (st : AuthState) (now : Int) : Bool :=
  match st.access with
  | some a => jsLtR now a.expiry
  | none => false

/-- Statuses in the 2xx range are the ones `got` delivers without throwing. -/
def is2xx (c : Int) : Bool :=
  decide (200 ≤ c) && decide (c < 300)

/-- Username resolution `this.#auth.credential?.username ?? username` in `loginOAuth`. -/
def resolveUsername (st : AuthState) (argUsername : Option String) : Option String :=
  match st.credential with
  | some c => some c.username
  | none => argUsername

/-- Password resolution `this.#auth.credential?.password ?? password` in `loginOAuth`. -/
def resolvePassword (st : AuthState) (argPassword : Option String) : Option String :=
  match st.credential with
  | some c => some c.password
  | none => argPassword

/-- State written by a successful `loginOAuth`: optionally the stored
plaintext credential, then `access` and `refresh` from the body. -/
def loginSuccessState (st : AuthState) (u p : String) (saveFlag : Bool) (now : Int)
    (resp : TokenResp) : AuthState :=
  { (if saveFlag then { st with credential := some ⟨u, p⟩ } else st) with
    access := some ⟨resp.access_token, expiryFrom resp.expires_in now⟩,
    refresh := some ⟨resp.refresh_token, none⟩ }

/-- Embedding of `Auth.loginOAuth(username?, password?, save = false)` of `src/Auth.ts`. -/
def loginOAuth (st : AuthState) (argUsername argPassword : Option String)
    (saveFlag : Bool) (now : Int) (resp : TokenResp) : Outcome (Option TokenResp) :=
  match resolveUsername st argUsername, resolvePassword st argPassword with
  | some u, some p =>
    if accessValid st now then
      ⟨Except.ok none, st, [], 0⟩
    else if resp.statusCode ≠ 200 then
      ⟨Except.error (AuthError.remoteAuthError resp.error_description), st, [], 1⟩
    else
      ⟨Except.ok (some resp), loginSuccessState st u p saveFlag now resp,
        [loginSuccessState st u p saveFlag now resp], 1⟩
  | _, _ => ⟨Except.error AuthError.missingCredential, st, [], 0⟩

/-- State written by a successful `refreshTokenOAuth`: only `access` is
replaced. -/
def oauthRefreshedState (st : AuthState) (now : Int) (resp : TokenResp) : AuthState :=
  { st with access := some ⟨resp.access_token, expiryFrom resp.expires_in now⟩ }

/-- Embedding of `Auth.refreshTokenOAuth()` of `src/Auth.ts`. -/
def refreshTokenOAuth (st : AuthState) (now : Int) (resp : TokenResp) :
    Outcome (Option TokenResp) :=
  match st.refresh with
  | none => ⟨Except.ok none, st, [], 0⟩
  | some _ =>
    if resp.statusCode ≠ 200 then
      ⟨Except.error (AuthError.remoteAuthError resp.error_description), st, [], 1⟩
    else
      ⟨Except.ok (some resp), oauthRefreshedState st now resp,
        [oauthRefreshedState st now resp], 1⟩

/-- Embedding of `Auth.obtainDeviceCode()` of `src/Auth.ts`; when `xbmc` already exists
the method only logs (pending code or already-registered notice) and
returns `undefined`. -/
def obtainDeviceCode (st : AuthState) (now : Int) (resp : DeviceResp) :
    Outcome (Option DeviceResp) :=
  match st.xbmc with
  | some _ => ⟨Except.ok none, st, [], 0⟩
  | none =>
    if ¬ is2xx resp.statusCode then
      ⟨Except.error AuthError.transportError, st, [], 1⟩
    else if resp.statusCode ≠ 200 then
      ⟨Except.error (AuthError.deviceHttpError resp), st, [], 1⟩
    else
      let st2 := { st with
        xbmc := some ⟨resp.device_code, resp.user_code, expiryFrom resp.expires_in now⟩ }
      ⟨Except.ok (some resp), st2, [st2], 1⟩

/-- The state `refreshTokenXBMC` persists on a non-pending response:
`Object.assign(this.#auth.xbmc, { expiry: undefined })` followed by
overwriting `access` from the body. -/
def xbmcApprovedState (st : AuthState) (x : Xbmc) (now : Int) (resp : XbmcResp) : AuthState :=
  { st with
    xbmc := some { x with expiry := none },
    access := some ⟨resp.access_token, expiryFrom resp.expires_in now⟩ }

/-- Embedding of `Auth.refreshTokenXBMC()` of `src/Auth.ts`. -/
def refreshTokenXBMC (st : AuthState) (now : Int) (resp : XbmcResp) :
    Outcome (Option XbmcResp) :=
  match st.xbmc with
  | none => ⟨Except.ok none, st, [], 0⟩
  | some x =>
    if ¬ is2xx resp.statusCode then
      ⟨Except.error AuthError.transportError, st, [], 1⟩
    else if resp.error = some "authorization_pending" then
      ⟨Except.error AuthError.authorizationPending, st, [], 1⟩
    else
      let st2 := xbmcApprovedState st x now resp
      ⟨Except.ok (some resp), st2, [st2], 1⟩

/-- Clock plus the three responses the cascade of `getAccessToken` may
consume. -/
structure Env where
  now : Int
  xbmcResp : XbmcResp
  refreshResp : TokenResp
  loginResp : TokenResp
deriving Repr

/-- Guard of the XBMC step of the cascade:
`this.#auth.xbmc && !(this.#auth.xbmc.expiry < Date.now())`. -/
def xbmcEligible (st : AuthState) (now : Int) : Bool :=
  match st.xbmc with
  | some x => ! jsLtL x.expiry now
  | none => false

/-- Tail of `getAccessToken`: `if (!this.#auth.access) throw ...; return
this.#auth.access?.token`. -/
def gatFinal (st : AuthState) (sv : List AuthState) (n : Nat) : Outcome (Option String) :=
  match st.access with
  | none => ⟨Except.error AuthError.unauthenticated, st, sv, n⟩
  | some a => ⟨Except.ok a.token, st, sv, n⟩

/-- Resume the cascade after the (uncaught) internal `loginOAuth` call. -/
def gatAfterLogin (o : Outcome (Option TokenResp)) (sv : List AuthState) (n : Nat) :
    Outcome (Option String) :=
  match o.result with
  | Except.error e => ⟨Except.error e, o.state, sv ++ o.saved, n + o.net⟩
  | Except.ok _ => gatFinal o.state (sv ++ o.saved) (n + o.net)

/-- Credential step of the cascade: `if (this.#auth.credential) await
this.loginOAuth()` — no `try`/`catch` around it. -/
def gatLogin (st : AuthState) (env : Env) (sv : List AuthState) (n : Nat) :
    Outcome (Option String) :=
  if st.credential.isSome then
    gatAfterLogin (loginOAuth st none none false env.now env.loginResp) sv n
  else gatFinal st sv n

/-- Resume the cascade after the (uncaught) internal `refreshTokenOAuth`
call. -/
def gatAfterRefresh (o : Outcome (Option TokenResp)) (env : Env) (sv : List AuthState)
    (n : Nat) : Outcome (Option String) :=
  match o.result with
  | Except.error e => ⟨Except.error e, o.state, sv ++ o.saved, n + o.net⟩
  | Except.ok _ => gatLogin o.state env (sv ++ o.saved) (n + o.net)

/-- Refresh step of the cascade: `if (this.#auth.refresh) await
this.refreshTokenOAuth()` — no `try`/`catch` around it. -/
def gatRefresh (st : AuthState) (env : Env) (sv : List AuthState) (n : Nat) :
    Outcome (Option String) :=
  if st.refresh.isSome then
    gatAfterRefresh (refreshTokenOAuth st env.now env.refreshResp) env sv n
  else gatLogin st env sv n

/-- Resume the cascade after the XBMC attempt; its `try { ... } catch (e)
{ console.warn(...) }` swallows the thrown error, so the cascade continues
regardless of `o.result`. -/
def gatAfterXbmc (o : Outcome (Option XbmcResp)) (env : Env) : Outcome (Option String) :=
  gatRefresh o.state env o.saved o.net

/-- Embedding of `Auth.getAccessToken()` of `src/Auth.ts`. -/
def getAccessToken (st : AuthState) (env : Env) : Outcome (Option String) :=
  if accessValid st env.now then
    ⟨Except.ok (st.access.bind Access.token), st, [], 0⟩
  else if xbmcEligible st env.now then
    gatAfterXbmc (refreshTokenXBMC st env.now env.xbmcResp) env
  else
    gatRefresh st env [] 0

/-!
Embedding of the `FilePersistence` adapter of `src/types.ts`. The file
content is modelled as the JSON value `fs-extra` would serialise with
`writeJSONSync` and parse back with `readJSONSync`; `JSON.stringify`
omits object properties whose value is `undefined`, which `optEntry`
mirrors by emitting no entry for a `none` field.
-/

/-- JSON values an `AuthState` can serialise to (strings, numbers,
objects). -/
inductive Json where
  | str : String → Json
  | num : Int → Json
  | obj : List (String × Json) → Json

/-- One serialised object entry; `none` fields produce no entry, as
`JSON.stringify` drops `undefined` properties. -/
def optEntry (k : String) (v : Option Json) : List (String × Json) :=
  match v with
  | some j => [(k, j)]
  | none => []

/-- Serialisation of `AuthState.access`. -/
def accessToJson (a : Access) : Json :=
  Json.obj (optEntry "token" (a.token.map Json.str) ++
    optEntry "expiry" (a.expiry.map Json.num))

/-- Serialisation of `AuthState.refresh`. -/
def refreshToJson (r : Refresh) : Json :=
  Json.obj (optEntry "token" (r.token.map Json.str) ++
    optEntry "expiry" (r.expiry.map Json.num))

/-- Serialisation of `AuthState.xbmc`. -/
def xbmcToJson (x : Xbmc) : Json :=
  Json.obj (optEntry "device_code" (x.device_code.map Json.str) ++
    optEntry "user_code" (x.user_code.map Json.str) ++
    optEntry "expiry" (x.expiry.map Json.num))

/-- Serialisation of `AuthState.credential`. -/
def credentialToJson (c : Credential) : Json :=
  Json.obj [("username", Json.str c.username), ("password", Json.str c.password)]

/-- Serialisation of a whole `AuthState`, as `fs.writeJSONSync` would
write it. -/
def authStateToJson (st : AuthState) : Json :=
  Json.obj (optEntry "access" (st.access.map accessToJson) ++
    optEntry "refresh" (st.refresh.map refreshToJson) ++
    optEntry "xbmc" (st.xbmc.map xbmcToJson) ++
    optEntry "credential" (st.credential.map credentialToJson))

/-- Property access on a parsed JSON value: `undefined` on a missing key
or a non-object. -/
def jLookup (j : Json) (k : String) : Option Json :=
  match j with
  | Json.obj fields => (fields.find? (fun p => p.1 == k)).map (fun p => p.2)
  | _ => none

/-- Read a JSON value as a string, `undefined` otherwise. -/
def asStr (v : Option Json) : Option String :=
  match v with
  | some (Json.str s) => some s
  | _ => none

/-- Read a JSON value as a number, `undefined` otherwise. -/
def asNum (v : Option Json) : Option Int :=
  match v with
  | some (Json.num n) => some n
  | _ => none

/-- Reading `access` back from parsed JSON. -/
def accessFromJson (j : Json) : Option Access :=
  match j with
  | Json.obj _ => some ⟨asStr (jLookup j "token"), asNum (jLookup j "expiry")⟩
  | _ => none

/-- Reading `refresh` back from parsed JSON. -/
def refreshFromJson (j : Json) : Option Refresh :=
  match j with
  | Json.obj _ => some ⟨asStr (jLookup j "token"), asNum (jLookup j "expiry")⟩
  | _ => none

/-- Reading `xbmc` back from parsed JSON. -/
def xbmcFromJson (j : Json) : Option Xbmc :=
  match j with
  | Json.obj _ => some ⟨asStr (jLookup j "device_code"), asStr (jLookup j "user_code"),
      asNum (jLookup j "expiry")⟩
  | _ => none

/-- Reading `credential` back from parsed JSON. -/
def credentialFromJson (j : Json) : Option Credential :=
  match asStr (jLookup j "username"), asStr (jLookup j "password") with
  | some u, some p => some ⟨u, p⟩
  | _, _ => none

/-- The `AuthState` view of a parsed JSON file, as the untyped
`fs.readJSONSync` result is used by the manager. -/
def authStateFromJson (j : Json) : AuthState :=
  { access := (jLookup j "access").bind accessFromJson,
    refresh := (jLookup j "refresh").bind refreshFromJson,
    xbmc := (jLookup j "xbmc").bind xbmcFromJson,
    credential := (jLookup j "credential").bind credentialFromJson }

/-- Backing file of a `FilePersistence` store: `none` while the file does
not exist yet. -/
structure FileStore where
  content : Option Json

namespace FilePersistence

/-- Embedding of `FilePersistence.save`: `fs.writeJSONSync(this.path, state)`
overwrites the file wholesale. -/
def save (_fs : FileStore) (st : AuthState) : FileStore :=
  ⟨some (authStateToJson st)⟩

/-- Embedding of `FilePersistence.load`: creates the file holding `{}`
when absent, then parses it. -/
def load (fs : FileStore) : FileStore × AuthState :=
  match fs.content with
  | none => (⟨some (Json.obj [])⟩, authStateFromJson (Json.obj []))
  | some j => (fs, authStateFromJson j)

end FilePersistence

/-!
Helper lemmas about the individual branches of the embedded methods.
-/

/-- A state whose `access` guard passes has `accessValid`. -/
theorem accessValid_of_some (st : AuthState) (now : Int) (a : Access)
    (ha : st.access = some a) (hv : jsLtR now a.expiry = true) :
    accessValid st now = true := by
  unfold accessValid
  rw [ha]
  exact hv

/-- With a cached credential, username resolution always succeeds. -/
theorem resolveUsername_isSome (st : AuthState) (argU : Option String) (c : Credential)
    (hc : st.credential = some c) : (resolveUsername st argU).isSome = true := by
  unfold resolveUsername
  rw [hc]
  rfl

/-- With a cached credential, password resolution always succeeds. -/
theorem resolvePassword_isSome (st : AuthState) (argP : Option String) (c : Credential)
    (hc : st.credential = some c) : (resolvePassword st argP).isSome = true := by
  unfold resolvePassword
  rw [hc]
  rfl

/-- Early return of `loginOAuth` when a valid access token is cached:
no error, no state change, no save, no request. -/
theorem loginOAuth_early (st : AuthState) (argU argP : Option String) (sv : Bool)
    (now : Int) (r : TokenResp)
    (hu : (resolveUsername st argU).isSome = true)
    (hp : (resolvePassword st argP).isSome = true)
    (hv : accessValid st now = true) :
    loginOAuth st argU argP sv now r = ⟨Except.ok none, st, [], 0⟩ := by
  unfold loginOAuth
  rcases hru : resolveUsername st argU with _ | u
  · rw [hru] at hu; simp at hu
  · rcases hrp : resolvePassword st argP with _ | p
    · rw [hrp] at hp; simp at hp
    · simp [hv]

/-- Failing branch of `loginOAuth`: resolvable credentials, no valid
token, non-200 status. -/
theorem loginOAuth_err (st : AuthState) (argU argP : Option String) (sv : Bool)
    (now : Int) (r : TokenResp)
    (hu : (resolveUsername st argU).isSome = true)
    (hp : (resolvePassword st argP).isSome = true)
    (hnv : accessValid st now = false) (hs : r.statusCode ≠ 200) :
    loginOAuth st argU argP sv now r =
      ⟨Except.error (AuthError.remoteAuthError r.error_description), st, [], 1⟩ := by
  unfold loginOAuth
  rcases hru : resolveUsername st argU with _ | u
  · rw [hru] at hu; simp at hu
  · rcases hrp : resolvePassword st argP with _ | p
    · rw [hrp] at hp; simp at hp
    · simp [hnv, hs]

/-- Whatever branch `loginOAuth` takes, it never touches `xbmc`. -/
theorem loginOAuth_state_xbmc (st : AuthState) (argU argP : Option String) (sv : Bool)
    (now : Int) (r : TokenResp) :
    (loginOAuth st argU argP sv now r).state.xbmc = st.xbmc := by
  unfold loginOAuth
  rcases resolveUsername st argU with _ | u
  · rfl
  · rcases resolvePassword st argP with _ | p
    · rfl
    · by_cases hv : accessValid st now
      · simp [hv]
      · by_cases hs : r.statusCode ≠ 200
        · simp [hv, hs]
        · simp [hv, hs, loginSuccessState]
          split <;> rfl

/-- Failing branch of `refreshTokenOAuth`: refresh token cached, non-200
status. -/
theorem refreshTokenOAuth_err (st : AuthState) (t : Refresh) (now : Int) (r : TokenResp)
    (hr : st.refresh = some t) (hs : r.statusCode ≠ 200) :
    refreshTokenOAuth st now r =
      ⟨Except.error (AuthError.remoteAuthError r.error_description), st, [], 1⟩ := by
  unfold refreshTokenOAuth
  rw [hr]
  simp [hs]

/-- Successful branch of `refreshTokenOAuth`. -/
theorem refreshTokenOAuth_ok (st : AuthState) (t : Refresh) (now : Int) (r : TokenResp)
    (hr : st.refresh = some t) (hs : r.statusCode = 200) :
    refreshTokenOAuth st now r =
      ⟨Except.ok (some r), oauthRefreshedState st now r,
        [oauthRefreshedState st now r], 1⟩ := by
  unfold refreshTokenOAuth
  rw [hr]
  simp [hs]

/-- Whatever branch `refreshTokenOAuth` takes, it never touches `xbmc`. -/
theorem refreshTokenOAuth_state_xbmc (st : AuthState) (now : Int) (r : TokenResp) :
    (refreshTokenOAuth st now r).state.xbmc = st.xbmc := by
  unfold refreshTokenOAuth
  rcases st.refresh with _ | t
  · rfl
  · by_cases hs : r.statusCode ≠ 200
    · simp [hs]
    · simp [hs, oauthRefreshedState]

/-- Whatever branch `refreshTokenOAuth` takes, it never touches
`credential`. -/
theorem refreshTokenOAuth_state_credential (st : AuthState) (now : Int) (r : TokenResp) :
    (refreshTokenOAuth st now r).state.credential = st.credential := by
  unfold refreshTokenOAuth
  rcases st.refresh with _ | t
  · rfl
  · by_cases hs : r.statusCode ≠ 200
    · simp [hs]
    · simp [hs, oauthRefreshedState]

/-- An erroring `refreshTokenXBMC` leaves the state unchanged, saves
nothing, and has issued its one request. -/
theorem refreshTokenXBMC_err_frame (st : AuthState) (now : Int) (r : XbmcResp)
    (e : AuthError) (h : (refreshTokenXBMC st now r).result = Except.error e) :
    refreshTokenXBMC st now r = ⟨Except.error e, st, [], 1⟩ := by
  unfold refreshTokenXBMC at h ⊢
  rcases hx : st.xbmc with _ | x
  · rw [hx] at h
    simp at h
  · rw [hx] at h
    by_cases h2 : is2xx r.statusCode
    · by_cases hpd : r.error = some "authorization_pending"
      · simp [h2, hpd] at h ⊢
        simp [h]
      · simp [h2, hpd] at h
    · simp [h2] at h ⊢
      simp [h]

/-- Non-pending branch of `refreshTokenXBMC`: the pairing is marked
approved and `access` is overwritten from the body. -/
theorem refreshTokenXBMC_ok (st : AuthState) (x : Xbmc) (now : Int) (r : XbmcResp)
    (hx : st.xbmc = some x) (h2 : is2xx r.statusCode = true)
    (hp : r.error ≠ some "authorization_pending") :
    refreshTokenXBMC st now r =
      ⟨Except.ok (some r), xbmcApprovedState st x now r,
        [xbmcApprovedState st x now r], 1⟩ := by
  unfold refreshTokenXBMC
  rw [hx]
  simp [h2, hp]

/-!
Structural lemmas about the cascade of `getAccessToken`.
-/

/-- The terminal step never changes the state. -/
theorem gatFinal_state (st : AuthState) (sv : List AuthState) (n : Nat) :
    (gatFinal st sv n).state = st := by
  unfold gatFinal
  split <;> rfl

/-- The terminal step performs no request of its own. -/
theorem gatFinal_net (st : AuthState) (sv : List AuthState) (n : Nat) :
    (gatFinal st sv n).net = n := by
  unfold gatFinal
  split <;> rfl

/-- Resuming after the login step keeps the `xbmc` field of the login
outcome. -/
theorem gatAfterLogin_state_xbmc (o : Outcome (Option TokenResp)) (sv : List AuthState)
    (n : Nat) : (gatAfterLogin o sv n).state.xbmc = o.state.xbmc := by
  unfold gatAfterLogin
  split
  · rfl
  · rw [gatFinal_state]

/-- The final two cascade steps never touch `xbmc`. -/
theorem gatLogin_state_xbmc (st : AuthState) (env : Env) (sv : List AuthState) (n : Nat) :
    (gatLogin st env sv n).state.xbmc = st.xbmc := by
  unfold gatLogin
  split
  · rw [gatAfterLogin_state_xbmc, loginOAuth_state_xbmc]
  · rw [gatFinal_state]

/-- Resuming after the refresh step keeps the `xbmc` field of the refresh
outcome. -/
theorem gatAfterRefresh_state_xbmc (o : Outcome (Option TokenResp)) (env : Env)
    (sv : List AuthState) (n : Nat) :
    (gatAfterRefresh o env sv n).state.xbmc = o.state.xbmc := by
  unfold gatAfterRefresh
  split
  · rfl
  · rw [gatLogin_state_xbmc]

/-- The cascade from the refresh step on never touches `xbmc`. -/
theorem gatRefresh_state_xbmc (st : AuthState) (env : Env) (sv : List AuthState) (n : Nat) :
    (gatRefresh st env sv n).state.xbmc = st.xbmc := by
  unfold gatRefresh
  split
  · rw [gatAfterRefresh_state_xbmc, refreshTokenOAuth_state_xbmc]
  · rw [gatLogin_state_xbmc]

/-- First branch of `getAccessToken`: the cached token is returned
as-is. -/
theorem getAccessToken_valid_branch (st : AuthState) (env : Env)
    (hv : accessValid st env.now = true) :
    getAccessToken st env = ⟨Except.ok (st.access.bind Access.token), st, [], 0⟩ := by
  unfold getAccessToken
  simp [hv]

/-- Second branch of `getAccessToken`: an eligible pairing sends the
cascade through the XBMC attempt. -/
theorem getAccessToken_xbmc_branch (st : AuthState) (env : Env)
    (hv : accessValid st env.now = false) (hel : xbmcEligible st env.now = true) :
    getAccessToken st env = gatAfterXbmc (refreshTokenXBMC st env.now env.xbmcResp) env := by
  unfold getAccessToken
  simp [hv, hel]

/-- Without a valid token or an eligible pairing the cascade starts at the
refresh step. -/
theorem getAccessToken_skip_xbmc (st : AuthState) (env : Env)
    (hv : accessValid st env.now = false) (hel : xbmcEligible st env.now = false) :
    getAccessToken st env = gatRefresh st env [] 0 := by
  unfold getAccessToken
  simp [hv, hel]

/-- An approved (expiry-free) pairing that is present in the state. -/
def clearedXbmc (st : AuthState) : Prop :=
  ∃ x, st.xbmc = some x ∧ x.expiry = none

/-- Transporting `clearedXbmc` along an equality of `xbmc` fields. -/
theorem clearedXbmc_of_eq (st1 st2 : AuthState) (h : st1.xbmc = st2.xbmc)
    (hc : clearedXbmc st2) : clearedXbmc st1 := by
  obtain ⟨x, hx, he⟩ := hc
  exact ⟨x, by rw [h, hx], he⟩

/-- Every branch of `refreshTokenXBMC` keeps an approved pairing
approved. -/
theorem refreshTokenXBMC_cleared (st : AuthState) (x : Xbmc) (now : Int) (r : XbmcResp)
    (hx : st.xbmc = some x) (he : x.expiry = none) :
    clearedXbmc (refreshTokenXBMC st now r).state := by
  unfold refreshTokenXBMC
  rw [hx]
  by_cases h2 : is2xx r.statusCode
  · by_cases hpd : r.error = some "authorization_pending"
    · simp [h2, hpd]
      exact ⟨x, hx, he⟩
    · simp [h2, hpd]
      exact ⟨{ x with expiry := none }, by simp [xbmcApprovedState], rfl⟩
  · simp [h2]
    exact ⟨x, hx, he⟩

/-!
Claim theorems.
-/

/-- C4: for every state with a cached access token whose expiry lies
strictly in the future, `getAccessToken` returns exactly that cached
token, issues zero network requests, saves nothing, and leaves the state
unchanged. -/
theorem getAccessToken_cached_valid (st : AuthState) (env : Env) (a : Access)
    (ha : st.access = some a) (hv : jsLtR env.now a.expiry = true) :
    getAccessToken st env = ⟨Except.ok a.token, st, [], 0⟩ := by
  rw [getAccessToken_valid_branch st env (accessValid_of_some st env.now a ha hv), ha]
  rfl

/-- Witness for C4 at a concrete state and clock. -/
theorem getAccessToken_cached_valid_witness :
    getAccessToken { access := some ⟨some "tok", some 2000⟩ }
        { now := 1000, xbmcResp := { statusCode := 200 }, refreshResp := { statusCode := 200 },
          loginResp := { statusCode := 200 } } =
      ⟨Except.ok (some "tok"), { access := some ⟨some "tok", some 2000⟩ }, [], 0⟩ :=
  getAccessToken_cached_valid _ _ ⟨some "tok", some 2000⟩ rfl (by decide)

/-- C5 counterexample: with a valid cached access token and a stored
credential, `loginOAuth` returns `undefined` (after a console warning)
instead of raising an error. -/
theorem loginOAuth_valid_token_no_error :
    loginOAuth { access := some ⟨some "tok", some 2000⟩, credential := some ⟨"u", "p"⟩ }
        none none false 1000 { statusCode := 200 } =
      ⟨Except.ok none,
        { access := some ⟨some "tok", some 2000⟩, credential := some ⟨"u", "p"⟩ }, [], 0⟩ := by
  decide

/-- C5 (amended): while a valid access token is cached and username and
password are resolvable, `loginOAuth` returns early without raising,
without mutating state, without saving, and without a network call; the
refusal the spec calls `TokenStillValid` is only a console warning, not an
error. -/
theorem loginOAuth_valid_token_early_return (st : AuthState) (argU argP : Option String)
    (sv : Bool) (now : Int) (r : TokenResp)
    (hu : (resolveUsername st argU).isSome = true)
    (hp : (resolvePassword st argP).isSome = true)
    (hv : accessValid st now = true) :
    loginOAuth st argU argP sv now r = ⟨Except.ok none, st, [], 0⟩ :=
  loginOAuth_early st argU argP sv now r hu hp hv

/-- Witness for C5 (amended) at a concrete state and response. -/
theorem loginOAuth_valid_token_early_return_witness :
    loginOAuth { access := some ⟨some "tok", some 9000⟩, credential := some ⟨"user", "pw"⟩ }
        none none true 1000 { statusCode := 400 } =
      ⟨Except.ok none,
        { access := some ⟨some "tok", some 9000⟩, credential := some ⟨"user", "pw"⟩ }, [], 0⟩ :=
  loginOAuth_valid_token_early_return _ none none true 1000 _ (by decide) (by decide) (by decide)

/-- C6 counterexample: a second `obtainDeviceCode` while a pending
unexpired code exists returns `undefined` (after printing the pairing
instructions again) rather than raising `DeviceCodePending`; the pending
code is left unchanged and no request is issued. -/
theorem obtainDeviceCode_pending_no_error :
    obtainDeviceCode { xbmc := some ⟨some "dc", some "uc", some 5000⟩ } 1000
        { statusCode := 200, device_code := some "dc2", user_code := some "uc2",
          expires_in := some 900 } =
      ⟨Except.ok none, { xbmc := some ⟨some "dc", some "uc", some 5000⟩ }, [], 0⟩ := by
  decide

/-- C6 (amended): whenever any pairing record exists — pending, expired or
approved — `obtainDeviceCode` returns early without error and without a
network call, leaving the existing record untouched; the refusal the spec
calls `DeviceCodePending` is only a console warning. -/
theorem obtainDeviceCode_existing_early_return (st : AuthState) (x : Xbmc) (now : Int)
    (r : DeviceResp) (hx : st.xbmc = some x) :
    obtainDeviceCode st now r = ⟨Except.ok none, st, [], 0⟩ := by
  unfold obtainDeviceCode
  rw [hx]

/-- Witness for C6 (amended) at a concrete pending pairing. -/
theorem obtainDeviceCode_existing_early_return_witness :
    obtainDeviceCode { xbmc := some ⟨some "dc", some "uc", some 500⟩ } 1000
        { statusCode := 200 } =
      ⟨Except.ok none, { xbmc := some ⟨some "dc", some "uc", some 500⟩ }, [], 0⟩ :=
  obtainDeviceCode_existing_early_return _ ⟨some "dc", some "uc", some 500⟩ 1000 _ rfl

/-- C8: with a cached refresh token and a 200 response, a successful
`refreshTokenOAuth` replaces only `access` (token from the body, expiry
`now` plus the TTL declared by the server), persists exactly once — the
persisted state being the final one — and leaves `refresh`, `xbmc` and
`credential` unchanged. -/
theorem refreshTokenOAuth_success_frame (st : AuthState) (t : Refresh) (now : Int)
    (r : TokenResp) (hr : st.refresh = some t) (hs : r.statusCode = 200) :
    refreshTokenOAuth st now r =
      ⟨Except.ok (some r), oauthRefreshedState st now r,
        [oauthRefreshedState st now r], 1⟩ ∧
    (oauthRefreshedState st now r).access =
      some ⟨r.access_token, expiryFrom r.expires_in now⟩ ∧
    (oauthRefreshedState st now r).refresh = st.refresh ∧
    (oauthRefreshedState st now r).xbmc = st.xbmc ∧
    (oauthRefreshedState st now r).credential = st.credential :=
  ⟨refreshTokenOAuth_ok st t now r hr hs, rfl, rfl, rfl, rfl⟩

/-- Witness for C8 at a concrete state and response. -/
theorem refreshTokenOAuth_success_frame_witness :
    refreshTokenOAuth { refresh := some ⟨some "rt", none⟩ } 1000
        { statusCode := 200, access_token := some "at", expires_in := some 3600 } =
      ⟨Except.ok
          (some { statusCode := 200, access_token := some "at", expires_in := some 3600 }),
        { access := some ⟨some "at", some 3601000⟩, refresh := some ⟨some "rt", none⟩ },
        [{ access := some ⟨some "at", some 3601000⟩, refresh := some ⟨some "rt", none⟩ }],
        1⟩ :=
  (refreshTokenOAuth_success_frame _ ⟨some "rt", none⟩ 1000 _ rfl rfl).1

/-- C10: with a cached device code and a delivered (2xx) response,
`refreshTokenXBMC` classifies solely on the `error` field: exactly
`authorization_pending` raises and leaves everything unchanged, while any
other body — a different error value, or no `access_token` at all — is
treated as approval: it clears `xbmc.expiry`, overwrites `access` with
whatever token and `expires_in` the body carries, and persists that state
once. -/
theorem refreshTokenXBMC_error_classification (st : AuthState) (x : Xbmc) (now : Int)
    (r : XbmcResp) (hx : st.xbmc = some x) (h2 : is2xx r.statusCode = true) :
    (r.error = some "authorization_pending" →
      refreshTokenXBMC st now r =
        ⟨Except.error AuthError.authorizationPending, st, [], 1⟩) ∧
    (r.error ≠ some "authorization_pending" →
      refreshTokenXBMC st now r =
        ⟨Except.ok (some r), xbmcApprovedState st x now r,
          [xbmcApprovedState st x now r], 1⟩) := by
  constructor
  · intro hpd
    unfold refreshTokenXBMC
    rw [hx]
    simp [h2, hpd]
  · intro hpd
    exact refreshTokenXBMC_ok st x now r hx h2 hpd

/-- Witness for C10: a non-pending error body without `access_token`
counts as approval and stores an undefined token. -/
theorem refreshTokenXBMC_error_classification_witness :
    refreshTokenXBMC { xbmc := some ⟨some "dc", some "uc", some 5000⟩ } 1000
        { statusCode := 200, error := some "expired_token" } =
      ⟨Except.ok (some { statusCode := 200, error := some "expired_token" }),
        { access := some ⟨none, none⟩, xbmc := some ⟨some "dc", some "uc", none⟩ },
        [{ access := some ⟨none, none⟩, xbmc := some ⟨some "dc", some "uc", none⟩ }], 1⟩ :=
  (refreshTokenXBMC_error_classification _ ⟨some "dc", some "uc", some 5000⟩ 1000 _ rfl
    (by decide)).2 (by decide)

/-- C1 counterexample: with only a refresh token cached and the token
endpoint answering 400, the OAuth-refresh failure inside the cascade
escapes `getAccessToken` to its caller. -/
theorem getAccessToken_propagates_oauth_error :
    (getAccessToken { refresh := some ⟨some "rt", none⟩ }
        { now := 1000, xbmcResp := { statusCode := 200 },
          refreshResp := { statusCode := 400, error_description := some "invalid_token" },
          loginResp := { statusCode := 200 } }).result =
      Except.error (AuthError.remoteAuthError (some "invalid_token")) := by
  decide

/-- C1 (amended): only the XBMC attempt of the cascade is wrapped in
`try`/`catch`: its failure is swallowed and the cascade continues with
unchanged state, while a failure raised by the internal OAuth refresh or
OAuth login propagates out of `getAccessToken`. -/
theorem getAccessToken_swallows_only_xbmc (st : AuthState) (env : Env) (e : AuthError)
    (hnv : accessValid st env.now = false)
    (hel : xbmcEligible st env.now = true)
    (herr : (refreshTokenXBMC st env.now env.xbmcResp).result = Except.error e) :
    getAccessToken st env = gatRefresh st env [] 1 ∧
    (st.refresh.isSome = true → env.refreshResp.statusCode ≠ 200 →
      (getAccessToken st env).result =
        Except.error (AuthError.remoteAuthError env.refreshResp.error_description)) ∧
    (st.refresh = none → st.credential.isSome = true → env.loginResp.statusCode ≠ 200 →
      (getAccessToken st env).result =
        Except.error (AuthError.remoteAuthError env.loginResp.error_description)) := by
  have hga : getAccessToken st env = gatRefresh st env [] 1 := by
    rw [getAccessToken_xbmc_branch st env hnv hel,
      refreshTokenXBMC_err_frame st env.now env.xbmcResp e herr]
    rfl
  refine ⟨hga, ?_, ?_⟩
  · intro hr hs
    obtain ⟨t, ht⟩ := Option.isSome_iff_exists.mp hr
    rw [hga]
    unfold gatRefresh
    simp only [hr, if_true]
    rw [refreshTokenOAuth_err st t env.now env.refreshResp ht hs]
    rfl
  · intro hr hc hs
    obtain ⟨c, hcc⟩ := Option.isSome_iff_exists.mp hc
    rw [hga]
    unfold gatRefresh
    simp only [hr, Option.isSome_none, Bool.false_eq_true, if_false]
    unfold gatLogin
    simp only [hc, if_true]
    rw [loginOAuth_err st none none false env.now env.loginResp
      (resolveUsername_isSome st none c hcc) (resolvePassword_isSome st none c hcc) hnv hs]
    rfl

/-- Witness for C1 (amended): pending pairing answered
`authorization_pending` (swallowed), then the refresh failure surfaces. -/
theorem getAccessToken_swallows_only_xbmc_witness :
    (getAccessToken
        { refresh := some ⟨some "rt", none⟩, xbmc := some ⟨some "dc", some "uc", some 5000⟩ }
        { now := 1000, xbmcResp := { statusCode := 200, error := some "authorization_pending" },
          refreshResp := { statusCode := 400, error_description := some "bad" },
          loginResp := { statusCode := 200 } }).result =
      Except.error (AuthError.remoteAuthError (some "bad")) :=
  (getAccessToken_swallows_only_xbmc _ _ AuthError.authorizationPending (by decide) (by decide)
    (by decide)).2.1 (by decide) (by decide)

/-- C2 counterexample: approved pairing plus cached refresh token; the
XBMC strategy succeeds and caches a valid token, yet the OAuth refresh
still issues a second network request in the same invocation. -/
theorem getAccessToken_no_short_circuit :
    accessValid
        (refreshTokenXBMC
          { refresh := some ⟨some "rt", none⟩, xbmc := some ⟨some "dc", some "uc", none⟩ }
          1000 { statusCode := 200, access_token := some "xt", expires_in := some 3600 }).state
        1000 = true ∧
    (getAccessToken
        { refresh := some ⟨some "rt", none⟩, xbmc := some ⟨some "dc", some "uc", none⟩ }
        { now := 1000,
          xbmcResp := { statusCode := 200, access_token := some "xt", expires_in := some 3600 },
          refreshResp := { statusCode := 200, access_token := some "rt2", expires_in := some 3600 },
          loginResp := { statusCode := 200 } }).net = 2 := by
  decide

/-- C2 (amended): the strategy order is fixed and a valid cached token
short-circuits the whole cascade with zero requests, but a success deeper
in the cascade does not: after a successful XBMC exchange, a cached
refresh token still triggers the OAuth-refresh request, so one invocation
issues two network requests. -/
theorem getAccessToken_strict_order (st : AuthState) (env : Env) (x : Xbmc) (t : Refresh)
    (hnv : accessValid st env.now = false)
    (hx : st.xbmc = some x) (hel : xbmcEligible st env.now = true)
    (h2 : is2xx env.xbmcResp.statusCode = true)
    (hnp : env.xbmcResp.error ≠ some "authorization_pending")
    (hr : st.refresh = some t)
    (hs : env.refreshResp.statusCode = 200)
    (hc : st.credential = none) :
    (∀ st2 : AuthState, accessValid st2 env.now = true → (getAccessToken st2 env).net = 0) ∧
    (getAccessToken st env).net = 2 := by
  constructor
  · intro st2 h2v
    rw [getAccessToken_valid_branch st2 env h2v]
  · have hrA : (xbmcApprovedState st x env.now env.xbmcResp).refresh = some t := hr
    have hcB : (oauthRefreshedState (xbmcApprovedState st x env.now env.xbmcResp) env.now
        env.refreshResp).credential = none := hc
    have e1 : getAccessToken st env =
        gatRefresh (xbmcApprovedState st x env.now env.xbmcResp) env
          [xbmcApprovedState st x env.now env.xbmcResp] 1 := by
      rw [getAccessToken_xbmc_branch st env hnv hel,
        refreshTokenXBMC_ok st x env.now env.xbmcResp hx h2 hnp]
      rfl
    rw [e1]
    unfold gatRefresh
    simp only [hrA, Option.isSome_some, if_true]
    rw [refreshTokenOAuth_ok _ t env.now env.refreshResp hrA hs]
    show (gatLogin (oauthRefreshedState (xbmcApprovedState st x env.now env.xbmcResp) env.now
      env.refreshResp) env _ _).net = 2
    unfold gatLogin
    simp only [hcB, Option.isSome_none, Bool.false_eq_true, if_false]
    rw [gatFinal_net]

/-- Witness for C2 (amended) at the concrete state of the counterexample
shifted by one time unit. -/
theorem getAccessToken_strict_order_witness :
    (getAccessToken
        { refresh := some ⟨some "rtw", none⟩, xbmc := some ⟨some "dcw", some "ucw", none⟩ }
        { now := 2000,
          xbmcResp := { statusCode := 200, access_token := some "xtw", expires_in := some 60 },
          refreshResp :=
            { statusCode := 200, access_token := some "rtw2", expires_in := some 60 },
          loginResp := { statusCode := 200 } }).net = 2 :=
  (getAccessToken_strict_order _ _ ⟨some "dcw", some "ucw", none⟩ ⟨some "rtw", none⟩
    (by decide) rfl (by decide) (by decide) (by decide) rfl rfl rfl).2

/-- C3 counterexample: with only an expired access token cached,
`getAccessToken` returns the stale token instead of failing with the
terminal `Unauthenticated` error. -/
theorem getAccessToken_returns_stale_token :
    getAccessToken { access := some ⟨some "old", some 500⟩ }
        { now := 1000, xbmcResp := { statusCode := 200 }, refreshResp := { statusCode := 200 },
          loginResp := { statusCode := 200 } } =
      ⟨Except.ok (some "old"), { access := some ⟨some "old", some 500⟩ }, [], 0⟩ := by
  decide

/-- C3 (amended): with no renewal strategy available (no pairing, no
refresh token, no credential) and no valid cached token, `getAccessToken`
fails with `Unauthenticated` exactly when `access` is entirely absent;
when an expired `access` record remains cached it returns that stale token
instead of failing. -/
theorem getAccessToken_unauthenticated_iff_no_access (st : AuthState) (env : Env)
    (hnv : accessValid st env.now = false)
    (hx : st.xbmc = none) (hr : st.refresh = none) (hc : st.credential = none) :
    getAccessToken st env =
      (match st.access with
       | none => ⟨Except.error AuthError.unauthenticated, st, [], 0⟩
       | some a => ⟨Except.ok a.token, st, [], 0⟩) := by
  have hel : xbmcEligible st env.now = false := by
    unfold xbmcEligible
    rw [hx]
  rw [getAccessToken_skip_xbmc st env hnv hel]
  unfold gatRefresh
  simp only [hr, Option.isSome_none, Bool.false_eq_true, if_false]
  unfold gatLogin
  simp only [hc, Option.isSome_none, Bool.false_eq_true, if_false]
  unfold gatFinal
  rcases st.access with _ | a <;> rfl

/-- Witness for C3 (amended): the empty state fails with the terminal
error. -/
theorem getAccessToken_unauthenticated_iff_no_access_witness :
    getAccessToken {}
        { now := 1000, xbmcResp := { statusCode := 200 }, refreshResp := { statusCode := 200 },
          loginResp := { statusCode := 200 } } =
      ⟨Except.error AuthError.unauthenticated, {}, [], 0⟩ :=
  getAccessToken_unauthenticated_iff_no_access {} _ (by decide) rfl rfl rfl

/-- With an existing pairing record, `obtainDeviceCode` leaves the state
untouched. -/
theorem obtainDeviceCode_state_eq (st : AuthState) (x : Xbmc) (now : Int) (r : DeviceResp)
    (hx : st.xbmc = some x) : (obtainDeviceCode st now r).state = st := by
  unfold obtainDeviceCode
  rw [hx]

/-- C7: device pairing is monotonic — starting from any state whose
pairing is approved (`xbmc` present with `expiry` absent), each operation
of the manager leaves the pairing present with `expiry` still absent:
no operation ever re-sets `xbmc.expiry` to a timestamp. -/
theorem xbmc_pairing_monotonic (st : AuthState) (x : Xbmc) (hx : st.xbmc = some x)
    (he : x.expiry = none) (argU argP : Option String) (sv : Bool) (now : Int)
    (lr rr : TokenResp) (dr : DeviceResp) (xr : XbmcResp) (env : Env) :
    clearedXbmc (loginOAuth st argU argP sv now lr).state ∧
    clearedXbmc (refreshTokenOAuth st now rr).state ∧
    clearedXbmc (obtainDeviceCode st now dr).state ∧
    clearedXbmc (refreshTokenXBMC st now xr).state ∧
    clearedXbmc (getAccessToken st env).state := by
  have hcl : clearedXbmc st := ⟨x, hx, he⟩
  refine ⟨?_, ?_, ?_, ?_, ?_⟩
  · exact clearedXbmc_of_eq _ st (loginOAuth_state_xbmc st argU argP sv now lr) hcl
  · exact clearedXbmc_of_eq _ st (refreshTokenOAuth_state_xbmc st now rr) hcl
  · exact clearedXbmc_of_eq _ st (by rw [obtainDeviceCode_state_eq st x now dr hx]) hcl
  · exact refreshTokenXBMC_cleared st x now xr hx he
  · cases hv : accessValid st env.now with
    | true =>
      rw [getAccessToken_valid_branch st env hv]
      exact hcl
    | false =>
      cases hel : xbmcEligible st env.now with
      | false =>
        rw [getAccessToken_skip_xbmc st env hv hel]
        exact clearedXbmc_of_eq _ st (gatRefresh_state_xbmc st env [] 0) hcl
      | true =>
        rw [getAccessToken_xbmc_branch st env hv hel]
        exact clearedXbmc_of_eq _ _
          (gatRefresh_state_xbmc (refreshTokenXBMC st env.now env.xbmcResp).state env
            (refreshTokenXBMC st env.now env.xbmcResp).saved
            (refreshTokenXBMC st env.now env.xbmcResp).net)
          (refreshTokenXBMC_cleared st x env.now env.xbmcResp hx he)

/-- Approved-pairing state used by the monotonicity witness. -/
def approvedPairingState : AuthState := { xbmc := some ⟨some "dc", some "uc", none⟩ }

/-- Environment used by the monotonicity witness. -/
def monotonicWitnessEnv : Env :=
  { now := 1000,
    xbmcResp := { statusCode := 200, access_token := some "xt", expires_in := some 60 },
    refreshResp := { statusCode := 200 }, loginResp := { statusCode := 200 } }

/-- Witness for C7 at a concrete approved pairing. -/
theorem xbmc_pairing_monotonic_witness :
    clearedXbmc (loginOAuth approvedPairingState none none false 1000
      { statusCode := 400 }).state ∧
    clearedXbmc (refreshTokenOAuth approvedPairingState 1000 { statusCode := 200 }).state ∧
    clearedXbmc (obtainDeviceCode approvedPairingState 1000 { statusCode := 200 }).state ∧
    clearedXbmc (refreshTokenXBMC approvedPairingState 1000 { statusCode := 200 }).state ∧
    clearedXbmc (getAccessToken approvedPairingState monotonicWitnessEnv).state :=
  xbmc_pairing_monotonic approvedPairingState ⟨some "dc", some "uc", none⟩ rfl rfl none none
    false 1000 { statusCode := 400 } { statusCode := 200 } { statusCode := 200 }
    { statusCode := 200 } monotonicWitnessEnv

/-- Round trip of the `access` component through JSON. -/
theorem accessFromJson_toJson (a : Access) : accessFromJson (accessToJson a) = some a := by
  rcases a with ⟨t, e⟩
  rcases t with _ | t <;> rcases e with _ | e <;> rfl

/-- Round trip of the `refresh` component through JSON. -/
theorem refreshFromJson_toJson (r : Refresh) : refreshFromJson (refreshToJson r) = some r := by
  rcases r with ⟨t, e⟩
  rcases t with _ | t <;> rcases e with _ | e <;> rfl

/-- Round trip of the `xbmc` component through JSON. -/
theorem xbmcFromJson_toJson (x : Xbmc) : xbmcFromJson (xbmcToJson x) = some x := by
  rcases x with ⟨d, u, e⟩
  rcases d with _ | d <;> rcases u with _ | u <;> rcases e with _ | e <;> rfl

/-- Round trip of the `credential` component through JSON. -/
theorem credentialFromJson_toJson (c : Credential) :
    credentialFromJson (credentialToJson c) = some c := by
  rcases c with ⟨u, p⟩
  rfl

/-- Round trip of a whole `AuthState` through its JSON serialisation. -/
theorem authStateFromJson_toJson (st : AuthState) :
    authStateFromJson (authStateToJson st) = st := by
  rcases st with ⟨a, r, x, c⟩
  rcases a with _ | a <;> rcases r with _ | r <;> rcases x with _ | x <;> rcases c with _ | c <;>
    simp [authStateToJson, authStateFromJson, optEntry, jLookup, List.find?,
      accessFromJson_toJson, refreshFromJson_toJson, xbmcFromJson_toJson,
      credentialFromJson_toJson]

/-- C9: saving any `AuthState` through the file-backed store and loading
it back yields a state equal to the original, absent and
partially-populated optional fields included. -/
theorem filePersistence_roundtrip (fs : FileStore) (st : AuthState) :
    (FilePersistence.load (FilePersistence.save fs st)).2 = st := by
  show authStateFromJson (authStateToJson st) = st
  exact authStateFromJson_toJson st

end Seedr
